import Mathlib

/-!
Shallow embedding of the Plivo browser SDK call-session module
(src/lib/stats/httpRequest.ts: the HTTP helper surface with fetchIPAddress,
together with the CallSession class) and proofs about its state machine,
signalling timeline, ICE-gathering watchdog and promise-resolution behaviour.

JavaScript conventions used by the embedding:
- a nullable number field is an Option Int; JavaScript truthiness of a
  number-or-null value (false for null and for 0) is jsTruthyNum;
- a string is truthy when nonempty (jsTruthyStr);
- object spread over typed records with optional fields is a field-wise
  merge in which a field present in the update wins (mergeSignallingInfo);
- String.prototype.search applied to a literal pattern succeeds exactly
  when the pattern occurs as a substring (containsSub).
-/

namespace Plivo

/-- JavaScript truthiness of a number-or-null value: null and 0 are falsy. -/
def jsTruthyNum (o : Option Int) : Bool :=
  match o with
  | none => false
  | some n => n != 0

/-- JavaScript truthiness of a string: the empty string is falsy. -/
def jsTruthyStr (s : String) : Bool := s != ""

/-- Whether the first list is an initial segment of the second. -/
def leadsWith : List Char → List Char → Bool
  | [], _ => true
  | _ :: _, [] => false
  | p :: ps, c :: cs => p == c && leadsWith ps cs

/-- Whether the pattern occurs as a contiguous sublist of the haystack. -/
def charsContain : List Char → List Char → Bool
  | [], pat => leadsWith pat []
  | c :: rest, pat => leadsWith pat (c :: rest) || charsContain rest pat

/-- s.search(pat) != -1 for a literal pattern: substring containment. -/
def containsSub (s pat : String) : Bool := charsContain s.data pat.data

/-- The STATE constants of CallSession. -/
inductive CallState
  | initialized
  | ringing
  | answered
  | rejected
  | ignored
  | canceled
  | failed
  | ended
  deriving DecidableEq, Repr

/-- The terminal states of the state table in the design (section 4.1). -/
def isTerminal : CallState → Bool
  | CallState.rejected => true
  | CallState.ignored => true
  | CallState.canceled => true
  | CallState.failed => true
  | CallState.ended => true
  | _ => false

/-- The signalling_errors record inside SignallingInfo. -/
structure SignallingErrorInfo where
  timestamp : Int
  error_code : String
  error_description : String
  deriving DecidableEq, Repr

/-- The SignallingInfo interface: optional timestamps and metrics.
An absent optional field is none. -/
structure SignallingInfo where
  call_initiation_time : Option Int := none
  answer_time : Option Int := none
  call_confirmed_time : Option Int := none
  post_dial_delay : Option Int := none
  hangup_time : Option Int := none
  hangup_party : Option String := none
  hangup_reason : Option String := none
  invite_time : Option Int := none
  call_progress_time : Option Int := none
  signalling_errors : Option SignallingErrorInfo := none
  ring_start_time : Option Int := none
  deriving DecidableEq, Repr

/-- One field of an object spread: the update value wins when present. -/
def mergeField (upd old : Option α) : Option α :=
  match upd with
  | some v => some v
  | none => old

/-- Object spread of two SignallingInfo records, the second over the first. -/
def mergeSignallingInfo (old upd : SignallingInfo) : SignallingInfo :=
  { call_initiation_time := mergeField upd.call_initiation_time old.call_initiation_time,
    answer_time := mergeField upd.answer_time old.answer_time,
    call_confirmed_time := mergeField upd.call_confirmed_time old.call_confirmed_time,
    post_dial_delay := mergeField upd.post_dial_delay old.post_dial_delay,
    hangup_time := mergeField upd.hangup_time old.hangup_time,
    hangup_party := mergeField upd.hangup_party old.hangup_party,
    hangup_reason := mergeField upd.hangup_reason old.hangup_reason,
    invite_time := mergeField upd.invite_time old.invite_time,
    call_progress_time := mergeField upd.call_progress_time old.call_progress_time,
    signalling_errors := mergeField upd.signalling_errors old.signalling_errors,
    ring_start_time := mergeField upd.ring_start_time old.ring_start_time }

/-- The MediaConnectionInformation interface: a string-keyed map of
timestamps, modelled as an association list. -/
def MediaConnectionInformation : Type := List (String × Int)

instance : DecidableEq MediaConnectionInformation :=
  inferInstanceAs (DecidableEq (List (String × Int)))

/-- Object spread of two string-keyed maps: keys of the update win and
other keys of the old map are kept. -/
def mergeMediaInfo (old upd : List (String × Int)) : List (String × Int) :=
  old.filter (fun kv => (upd.lookup kv.1).isNone) ++ upd

/-- Extra SIP headers, modelled as name-value pairs. -/
def ExtraHeaders : Type := List (String × String)

instance : DecidableEq ExtraHeaders :=
  inferInstanceAs (DecidableEq (List (String × String)))

/-- The RTP stats collector handle owned by the session: its two interval
timer ids; its stop method is an external effect recorded in the trace. -/
structure GetRTPStats where
  statsTimer : Nat
  audioTimer : Nat
  deriving DecidableEq, Repr

/-- Device audio info returned by the external getAudioDevicesInfo query
(declared outside this module); modelled as an abstract payload. -/
structure DeviceAudioInfo where
  payload : String
  deriving DecidableEq, Repr

/-- The CallInfo snapshot returned by getCallInfo. The source casts the
nullable callUUID to string; the runtime value may still be null, so the
field stays an Option here. -/
structure CallInfo where
  callUUID : Option String
  direction : String
  src : String
  dest : String
  state : CallState
  extraHeaders : ExtraHeaders
  deriving DecidableEq

/-- Observable outward effects of the session handlers: diagnostic events,
notifications, routed faults and watchdog timer activity. -/
inductive SessionEvent
  | callAnswered (deviceInfo : Option DeviceAudioInfo)
  | onCallAnswered (info : CallInfo)
  | iceReady
  | timerScheduled
  | metricIceTimeout (value : Int)
  | iceFailureRouted
  | mediaErrorHandled
  | hangupCleared
  | volumeStreamingStopped
  | fabricTerminated (callUUID : Option String)
  | onCallTerminated (originator : String) (cause : String) (info : CallInfo)
  | mediaFailureRouted
  | sdpFailureRouted (msg : String)
  deriving DecidableEq

/-- External effects of releasing the stats handle. -/
inductive StatsEffect
  | clearTimerInterval (id : Nat)
  | rtpStatsStop
  deriving DecidableEq, Repr

/-- The CallSession aggregate: the per-call mutable fields. The session
field models presence of the underlying RTCSession reference, which the
watchdog re-checks with a truthiness test at fire time. -/
structure CallSession where
  callUUID : Option String
  sipCallID : Option String
  direction : String
  src : String
  dest : String
  state : CallState
  extraHeaders : ExtraHeaders
  session : Bool
  connectionStages : List String
  gotInitalIce : Bool
  stats : Option GetRTPStats
  signallingInfo : SignallingInfo
  mediaConnectionInfo : List (String × Int)
  postDialDelayEndTime : Option Int
  deriving DecidableEq

/-- The options record taken by the CallSession constructor. -/
structure CallSessionOptions where
  callUUID : Option String := none
  sipCallID : Option String
  direction : String
  src : String
  dest : String
  extraHeaders : ExtraHeaders
  call_initiation_time : Option Int := none

/-- The CallSession constructor: a truthy callUUID option is kept and any
falsy one becomes null; call_initiation_time is recorded only when truthy;
everything else starts empty, with state initialized. -/
def CallSession.create (options : CallSessionOptions) : CallSession :=
  { callUUID :=
      (match options.callUUID with
       | some u => if jsTruthyStr u then some u else none
       | none => none),
    sipCallID := options.sipCallID,
    direction := options.direction,
    src := options.src,
    dest := options.dest,
    state := CallState.initialized,
    extraHeaders := options.extraHeaders,
    session := true,
    connectionStages := [],
    gotInitalIce := false,
    stats := none,
    signallingInfo :=
      (if jsTruthyNum options.call_initiation_time then
        { call_initiation_time := options.call_initiation_time }
      else {}),
    mediaConnectionInfo := [],
    postDialDelayEndTime := none }

/-- setCallUUID: plain assignment of the argument to the field. -/
def CallSession.setCallUUID (s : CallSession) (callUUID : Option String) : CallSession :=
  { s with callUUID := callUUID }

/-- setState: plain assignment of the argument to the state field. -/
def CallSession.setState (s : CallSession) (st : CallState) : CallSession :=
  { s with state := st }

/-- addConnectionStage: push onto the stage list. -/
def CallSession.addConnectionStage (s : CallSession) (stage : String) : CallSession :=
  { s with connectionStages := s.connectionStages ++ [stage] }

/-- getConnectionStages. -/
def CallSession.getConnectionStages (s : CallSession) : List String := s.connectionStages

/-- setCallStats: bind a stats collector handle. -/
def CallSession.setCallStats (s : CallSession) (stats : GetRTPStats) : CallSession :=
  { s with stats := some stats }

/-- clearCallStats: when the stats handle is absent do nothing; otherwise
clear both interval timers, stop the collector, and null the handle. -/
def CallSession.clearCallStats (s : CallSession) : CallSession × List StatsEffect :=
  match s.stats with
  | none => (s, [])
  | some st =>
    ({ s with stats := none },
     [StatsEffect.clearTimerInterval st.statsTimer,
      StatsEffect.clearTimerInterval st.audioTimer,
      StatsEffect.rtpStatsStop])

/-- updateSignallingInfo: spread the update over the stored record. -/
def CallSession.updateSignallingInfo (s : CallSession) (object : SignallingInfo) : CallSession :=
  { s with signallingInfo := mergeSignallingInfo s.signallingInfo object }

/-- updateMediaConnectionInfo: spread the update over the stored map. -/
def CallSession.updateMediaConnectionInfo (s : CallSession)
    (object : List (String × Int)) : CallSession :=
  { s with mediaConnectionInfo := mergeMediaInfo s.mediaConnectionInfo object }

/-- getSignallingInfo: the stored record with a derived post_dial_delay.
Source text: postDialDelayEndTime ? postDialDelayEndTime : 0 -
call_initiation_time. The conditional operator binds the whole
subtraction to the else branch, so a truthy postDialDelayEndTime is
returned unsubtracted. A none result encodes the NaN that 0 - undefined
produces when call_initiation_time is absent. -/
def CallSession.getSignallingInfo (s : CallSession) : SignallingInfo :=
  { s.signallingInfo with
    post_dial_delay :=
      if jsTruthyNum s.postDialDelayEndTime then s.postDialDelayEndTime
      else
        match s.signallingInfo.call_initiation_time with
        | some cit => some (0 - cit)
        | none => none }

/-- getMediaConnectionInfo. -/
def CallSession.getMediaConnectionInfo (s : CallSession) : List (String × Int) :=
  s.mediaConnectionInfo

/-- setPostDialDelayEndTime: assign only when the stored value is falsy
(null or 0). -/
def CallSession.setPostDialDelayEndTime (s : CallSession) (time : Int) : CallSession :=
  if jsTruthyNum s.postDialDelayEndTime then s
  else { s with postDialDelayEndTime := some time }

/-- getCallInfo: the basic call information snapshot. -/
def CallSession.getCallInfo (s : CallSession) : CallInfo :=
  { callUUID := s.callUUID,
    direction := s.direction,
    src := s.src,
    dest := s.dest,
    state := s.state,
    extraHeaders := s.extraHeaders }

/-- Outcome of the asynchronous getAudioDevicesInfo query (external). -/
inductive DeviceQueryOutcome
  | fulfilled (info : DeviceAudioInfo)
  | rejected
  deriving DecidableEq, Repr

/-- onAccepted: register close-protection listeners (external to the session
fields), emit the answered diagnostic with the device info when the device
query fulfils and with null when it rejects, record answer_time, and start
call tracking and volume streaming (external). -/
def CallSession.onAccepted (s : CallSession) (now : Int) (q : DeviceQueryOutcome) :
    CallSession × List SessionEvent :=
  (s.updateSignallingInfo { answer_time := some now },
   [SessionEvent.callAnswered
      (match q with
       | DeviceQueryOutcome.fulfilled d => some d
       | DeviceQueryOutcome.rejected => none)])

/-- onConfirmed: append the confirmed stage, set state to answered, record
call_confirmed_time, and emit the onCallAnswered notification carrying the
call info snapshot. Encoding parameters, the RTP-timeout flag, the stats
collector start, ringtone stopping and the one-way-audio check act on the
client object or the connection, outside the session fields modelled here. -/
def CallSession.onConfirmed (s : CallSession) (now : Int) : CallSession × List SessionEvent :=
  let s1 := (s.addConnectionStage ("confirmed@" ++ toString now)).setState CallState.answered
  let s2 := s1.updateSignallingInfo { call_confirmed_time := some now }
  (s2, [SessionEvent.onCallAnswered s2.getCallInfo])

/-- The fast-path test of onIceCandidate: the candidate is present and its
SDP string contains srflx. -/
def candidateIsSrflx (c : Option String) : Bool :=
  match c with
  | some str => containsSub str "srflx"
  | none => false

/-- onIceCandidate: a srflx candidate signals ready immediately and returns;
otherwise the first candidate (gotInitalIce guard) arms the single
watchdog timer and later candidates are no-ops. -/
def CallSession.onIceCandidate (s : CallSession) (c : Option String) :
    CallSession × List SessionEvent :=
  if candidateIsSrflx c then (s, [SessionEvent.iceReady])
  else if s.gotInitalIce then (s, [])
  else ({ s with gotInitalIce := true }, [SessionEvent.timerScheduled])

/-- The placeholder value of the fixed ICE gathering timeout constant
(C.ICE_GATHERING_TIMEOUT lives in the constants module, outside this
source slice; only its fixedness matters to the claims). -/
def ICE_GATHERING_TIMEOUT : Int := 10000

/-- The body of the scheduled watchdog at fire time: a no-op when the
session reference is gone; otherwise, when a connection is present and
gathering is not complete, signal ready and emit the ice_timeout network
warning. -/
def CallSession.fireIceWatchdog (s : CallSession) (connPresent gatheringComplete : Bool) :
    List SessionEvent :=
  if !s.session then []
  else if connPresent && !gatheringComplete then
    [SessionEvent.iceReady, SessionEvent.metricIceTimeout ICE_GATHERING_TIMEOUT]
  else []

/-- onIceTimeout: emit the ice_timeout network warning and route the fault
to onIceFailure (external). -/
def CallSession.onIceTimeout (s : CallSession) (sec : Int) : CallSession × List SessionEvent :=
  (s, [SessionEvent.metricIceTimeout sec, SessionEvent.iceFailureRouted])

/-- onFailed: append the failed stage, record the hangup data, route to
media-error handling and hangup clearance (external), and stop volume
streaming. -/
def CallSession.onFailed (s : CallSession) (now : Int) (originator cause : String) :
    CallSession × List SessionEvent :=
  let s1 := s.addConnectionStage ("failed@" ++ toString now)
  let s2 := s1.updateSignallingInfo
    { hangup_time := some now, hangup_party := some originator, hangup_reason := some cause }
  (s2, [SessionEvent.mediaErrorHandled, SessionEvent.hangupCleared,
        SessionEvent.volumeStreamingStopped])

/-- onEnded: append the ended stage, set state to ended, record the hangup
data; when a callstats engine is bound report the fabricTerminated marker;
when the client holds a current-session reference, emit onCallTerminated
with that session info and run hangup clearance against it. -/
def CallSession.onEnded (s : CallSession) (now : Int) (originator cause : String)
    (callStatsBound : Bool) (currentSessionInfo : Option CallInfo) :
    CallSession × List SessionEvent :=
  let s1 := (s.addConnectionStage ("ended@" ++ toString now)).setState CallState.ended
  let s2 := s1.updateSignallingInfo
    { hangup_time := some now, hangup_party := some originator, hangup_reason := some cause }
  (s2,
   (if callStatsBound then [SessionEvent.fabricTerminated s2.callUUID] else []) ++
   (match currentSessionInfo with
    | some info =>
      [SessionEvent.onCallTerminated originator cause info,
       SessionEvent.hangupCleared, SessionEvent.volumeStreamingStopped]
    | none => []))

/-- onGetUserMediaFailed: report via callstats when available (external) and
route the fault to onMediaFailure; the session fields are unchanged. -/
def CallSession.onGetUserMediaFailed (s : CallSession) : CallSession × List SessionEvent :=
  (s, [SessionEvent.mediaFailureRouted])

/-- handlePeerConnectionFailures: report the stage-tagged error via
callstats when available (external) and route to onSDPfailure; the session
fields are unchanged. -/
def CallSession.handlePeerConnectionFailures (s : CallSession) (msg : String) :
    CallSession × List SessionEvent :=
  (s, [SessionEvent.sdpFailureRouted msg])

/-- One public event-handler invocation together with its payload. -/
inductive HandlerCall
  | accepted (now : Int) (q : DeviceQueryOutcome)
  | confirmed (now : Int)
  | iceCandidate (c : Option String)
  | iceTimeout (sec : Int)
  | failedEvent (now : Int) (originator cause : String)
  | endedEvent (now : Int) (originator cause : String)
      (callStatsBound : Bool) (currentSessionInfo : Option CallInfo)
  | getUserMediaFailed
  | peerConnectionFailure (msg : String)

/-- Dispatch of one public event-handler invocation. -/
def handlerStep (h : HandlerCall) (s : CallSession) : CallSession × List SessionEvent :=
  match h with
  | HandlerCall.accepted now q => s.onAccepted now q
  | HandlerCall.confirmed now => s.onConfirmed now
  | HandlerCall.iceCandidate c => s.onIceCandidate c
  | HandlerCall.iceTimeout sec => s.onIceTimeout sec
  | HandlerCall.failedEvent now o c => s.onFailed now o c
  | HandlerCall.endedEvent now o c b cur => s.onEnded now o c b cur
  | HandlerCall.getUserMediaFailed => s.onGetUserMediaFailed
  | HandlerCall.peerConnectionFailure m => s.handlePeerConnectionFailures m

/-- Deliver a list of gathered candidates to onIceCandidate in order,
threading the session and concatenating the emitted events. -/
def CallSession.processIceCandidates (s : CallSession) :
    List (Option String) → CallSession × List SessionEvent
  | [] => (s, [])
  | c :: rest =>
    let r1 := s.onIceCandidate c
    let r2 := r1.1.processIceCandidates rest
    (r2.1, r1.2 ++ r2.2)

/-- Recognizer for the watchdog-scheduling marker. -/
def isTimerScheduledEvent : SessionEvent → Bool
  | SessionEvent.timerScheduled => true
  | _ => false

/-- Recognizer for the ready signal. -/
def isReadyEvent : SessionEvent → Bool
  | SessionEvent.iceReady => true
  | _ => false

/-- Recognizer for the ice_timeout network-warning diagnostic. -/
def isIceTimeoutEvent : SessionEvent → Bool
  | SessionEvent.metricIceTimeout _ => true
  | _ => false

/-- Number of watchdog timers scheduled in a trace. -/
def countTimerScheduled (l : List SessionEvent) : Nat := l.countP isTimerScheduledEvent

/-- Number of ready signals in a trace. -/
def countReady (l : List SessionEvent) : Nat := l.countP isReadyEvent

/-- Number of ice_timeout diagnostics in a trace. -/
def countIceTimeout (l : List SessionEvent) : Nat := l.countP isIceTimeoutEvent

/-- A complete gathering scenario: deliver the candidate list, then fire
every watchdog timer that was scheduled, with the given connection
presence and gathering state holding at fire time. -/
def CallSession.iceScenario (s : CallSession) (cs : List (Option String))
    (connPresent gatheringComplete : Bool) : List SessionEvent :=
  let r := s.processIceCandidates cs
  r.2 ++ (List.replicate (countTimerScheduled r.2)
            (r.1.fireIceWatchdog connPresent gatheringComplete)).flatten

/-- Outcome of the SIP MESSAGE underlying fetchIPAddress. For the succeeded
event, responseBody models data.response and data.response.body together:
none when the response or its body is absent. -/
inductive MessageOutcome
  | succeeded (responseBody : Option String)
  | failed
  deriving DecidableEq, Repr

/-- A settled promise: resolved with a value, or rejected with a reason. -/
inductive PromiseOutcome (α : Type)
  | resolvedWith (v : α)
  | rejectedWith (reason : String)
  deriving DecidableEq, Repr

/-- The Error value constructed by fetchIPAddress. -/
structure JsError where
  message : String
  deriving DecidableEq, Repr

/-- Whether a settled promise was resolved rather than rejected. -/
def PromiseOutcome.isResolved : PromiseOutcome α → Bool
  | PromiseOutcome.resolvedWith _ => true
  | PromiseOutcome.rejectedWith _ => false

/-- fetchIPAddress: resolves with the response body when the body is present
and truthy, and otherwise resolves (never rejects) with an Error value
carried as the resolution value. -/
def fetchIPAddress (o : MessageOutcome) : PromiseOutcome (Sum String JsError) :=
  match o with
  | MessageOutcome.succeeded rb =>
    (match rb with
     | some b =>
       if jsTruthyStr b then PromiseOutcome.resolvedWith (Sum.inl b)
       else PromiseOutcome.resolvedWith
         (Sum.inr { message := "couldn\x27t retrieve ipaddress" })
     | none => PromiseOutcome.resolvedWith
         (Sum.inr { message := "couldn\x27t retrieve ipaddress" }))
  | MessageOutcome.failed =>
    PromiseOutcome.resolvedWith (Sum.inr { message := "couldn\x27t retrieve ipaddress" })

/-- A concrete outbound session used by witnesses and counterexamples. -/
def sampleSession : CallSession :=
  CallSession.create
    { callUUID := none, sipCallID := some "sip-call-1", direction := "outgoing",
      src := "alice", dest := "bob", extraHeaders := [],
      call_initiation_time := none }

/-- A session created with call_initiation_time 100 that then saw its first
ringing response at time 150. -/
def c1Session : CallSession :=
  (CallSession.create
    { callUUID := none, sipCallID := some "sip-call-2", direction := "outgoing",
      src := "alice", dest := "bob", extraHeaders := [],
      call_initiation_time := some 100 }).setPostDialDelayEndTime 150

/-- A session owning a stats collector handle. -/
def statsSession : CallSession :=
  sampleSession.setCallStats { statsTimer := 7, audioTimer := 8 }

/-- A host-type candidate SDP string: neither relay nor reflexive. -/
def hostCand : String := "candidate:1 1 udp 2122260223 192.168.1.4 54321 typ host"

/-- A server-reflexive candidate SDP string. -/
def srflxCand : String :=
  "candidate:2 1 udp 1686052607 203.0.113.5 49152 typ srflx raddr 192.168.1.4 rport 54321"

/-- A relay-type candidate SDP string. -/
def relayCand : String :=
  "candidate:3 1 udp 41885439 198.51.100.7 3478 typ relay raddr 198.51.100.7 rport 3478"

/-- Claim C1 (evaluation at the failing input): on a session whose
call_initiation_time is 100 and whose postDialDelayEndTime was set to 150,
getSignallingInfo returns post_dial_delay 150, the raw end timestamp,
while the specified contract, postDialDelayEndTime minus
call_initiation_time, is 50: the conditional-operator precedence keeps
the subtraction inside the else branch only. -/
theorem c1_post_dial_delay_divergence :
    c1Session.getSignallingInfo.post_dial_delay = some 150 ∧
    c1Session.signallingInfo.call_initiation_time = some 100 ∧
    c1Session.postDialDelayEndTime = some 150 ∧
    (150 : Int) - 100 = 50 ∧ (50 : Int) ≠ 150 := by decide

/-- Claim C2 counterexample: a relay-type first candidate (its SDP string
contains relay and not srflx) does not take the fast path: no ready signal
is emitted and the watchdog is armed for it. -/
theorem c2_relay_first_candidate_arms_watchdog :
    containsSub relayCand "relay" = true ∧
    containsSub relayCand "srflx" = false ∧
    sampleSession.gotInitalIce = false ∧
    (sampleSession.onIceCandidate (some relayCand)).1.gotInitalIce = true ∧
    countReady (sampleSession.onIceCandidate (some relayCand)).2 = 0 ∧
    countTimerScheduled (sampleSession.onIceCandidate (some relayCand)).2 = 1 := by
  decide

/-- Claim C2 (amended): when the delivered candidate is present and its SDP
string contains srflx (a server-reflexive candidate), onIceCandidate
signals ready immediately and returns with the session unchanged, so the
watchdog is never armed by such a candidate; relay candidates are not part
of this fast path. -/
theorem c2_srflx_fast_path (s : CallSession) (str : String)
    (h : containsSub str "srflx" = true) :
    s.onIceCandidate (some str) = (s, [SessionEvent.iceReady]) := by
  simp [CallSession.onIceCandidate, candidateIsSrflx, h]

/-- Witness for c2_srflx_fast_path at a concrete reflexive candidate. -/
theorem c2_srflx_fast_path_witness :
    containsSub srflxCand "srflx" = true ∧
    sampleSession.onIceCandidate (some srflxCand) =
      (sampleSession, [SessionEvent.iceReady]) :=
  ⟨by decide, c2_srflx_fast_path sampleSession srflxCand (by decide)⟩

/-- Claim C5 counterexample: calling setPostDialDelayEndTime with 0 and then
with 5 (two different values) retains 5, the second value, because the
write-once guard is a JavaScript truthiness test and 0 is falsy. -/
theorem c5_zero_first_value_not_retained :
    ((sampleSession.setPostDialDelayEndTime 0).setPostDialDelayEndTime
        5).postDialDelayEndTime = some 5 ∧
    (0 : Int) ≠ 5 := by decide

/-- Claim C5 (amended): when postDialDelayEndTime is not yet truthy (null or
0) and the first value written is nonzero, that first value is retained
across a second call with any value: the guard treats a stored 0 as unset,
so write-once holds only for nonzero first values. -/
theorem c5_post_dial_delay_write_once (s : CallSession) (t1 t2 : Int)
    (h0 : jsTruthyNum s.postDialDelayEndTime = false) (h1 : t1 ≠ 0) :
    ((s.setPostDialDelayEndTime t1).setPostDialDelayEndTime t2).postDialDelayEndTime
      = some t1 := by
  have e1 : s.setPostDialDelayEndTime t1 = { s with postDialDelayEndTime := some t1 } := by
    simp [CallSession.setPostDialDelayEndTime, h0]
  have e2 : jsTruthyNum (some t1) = true := by
    simpa [jsTruthyNum] using h1
  rw [e1]
  simp [CallSession.setPostDialDelayEndTime, e2]

/-- Witness for c5_post_dial_delay_write_once at concrete timestamps. -/
theorem c5_post_dial_delay_write_once_witness :
    jsTruthyNum sampleSession.postDialDelayEndTime = false ∧ (150 : Int) ≠ 0 ∧
    ((sampleSession.setPostDialDelayEndTime 150).setPostDialDelayEndTime
        999).postDialDelayEndTime = some 150 :=
  ⟨by decide, by decide,
   c5_post_dial_delay_write_once sampleSession 150 999 (by decide) (by decide)⟩

/-- Claim C6 counterexample: after callUUID is set to the non-null value
uuid-a, a later setCallUUID with uuid-b reassigns it to uuid-b. -/
theorem c6_callUUID_reassigned :
    ((sampleSession.setCallUUID (some "uuid-a")).setCallUUID
        (some "uuid-b")).callUUID = some "uuid-b" ∧
    (some "uuid-b" : Option String) ≠ some "uuid-a" := by decide

/-- Claim C6 (amended): setCallUUID is a plain unconditional assignment, so
the field always holds the latest argument (last write wins); write-once
immutability of the call identifier is a caller discipline, not enforced
by the session. -/
theorem c6_setCallUUID_last_write_wins (s : CallSession) (u : Option String) :
    (s.setCallUUID u).callUUID = u := rfl

/-- Claim C7: clearCallStats is idempotent: a second invocation right after
a first one leaves the session state of the single invocation unchanged
and produces no effects, and invoking it when the stats handle is already
released is a no-op. -/
theorem c7_clearCallStats_idempotent (s : CallSession) :
    CallSession.clearCallStats (s.clearCallStats).1 = ((s.clearCallStats).1, []) ∧
    (s.stats = none → s.clearCallStats = (s, [])) := by
  constructor
  · cases hs : s.stats <;> simp [CallSession.clearCallStats, hs]
  · intro h
    simp [CallSession.clearCallStats, h]

/-- Witness for c7_clearCallStats_idempotent: once on a session owning a
stats handle, and once on a session with the handle already released. -/
theorem c7_clearCallStats_idempotent_witness :
    CallSession.clearCallStats (statsSession.clearCallStats).1 =
      ((statsSession.clearCallStats).1, []) ∧
    sampleSession.stats = none ∧
    sampleSession.clearCallStats = (sampleSession, []) :=
  ⟨(c7_clearCallStats_idempotent statsSession).1, by decide,
   (c7_clearCallStats_idempotent sampleSession).2 (by decide)⟩

/-- Claim C3 counterexample: after onEnded puts the session in the terminal
ended state, a late onConfirmed still runs setState and moves state to
answered, leaving the terminal state. -/
theorem c3_confirmed_leaves_ended :
    isTerminal (handlerStep (HandlerCall.endedEvent 5 "callee" "NORMAL_CLEARANCE" false none)
        sampleSession).1.state = true ∧
    (handlerStep (HandlerCall.confirmed 6)
        (handlerStep (HandlerCall.endedEvent 5 "callee" "NORMAL_CLEARANCE" false none)
          sampleSession).1).1.state = CallState.answered ∧
    CallState.answered ≠ CallState.ended := by decide

/-- Claim C3 (amended): no handler ever moves state backward to initialized
or ringing: every public handler leaves state unchanged, or sets it to
answered (onConfirmed) or to ended (onEnded); the transition table itself
is not enforced, so a late onConfirmed after a terminal state moves the
session back to answered. -/
theorem c3_state_forward_only (h : HandlerCall) (s : CallSession) :
    (handlerStep h s).1.state = s.state ∨
    (handlerStep h s).1.state = CallState.answered ∨
    (handlerStep h s).1.state = CallState.ended := by
  cases h with
  | accepted now q =>
    exact Or.inl (by
      simp [handlerStep, CallSession.onAccepted, CallSession.updateSignallingInfo])
  | confirmed now =>
    exact Or.inr (Or.inl (by
      simp [handlerStep, CallSession.onConfirmed, CallSession.updateSignallingInfo,
        CallSession.setState, CallSession.addConnectionStage]))
  | iceCandidate c =>
    refine Or.inl ?_
    by_cases hc : candidateIsSrflx c
    · simp [handlerStep, CallSession.onIceCandidate, hc]
    · by_cases hg : s.gotInitalIce <;>
        simp [handlerStep, CallSession.onIceCandidate, hc, hg]
  | iceTimeout sec => exact Or.inl rfl
  | failedEvent now o c =>
    exact Or.inl (by
      simp [handlerStep, CallSession.onFailed, CallSession.updateSignallingInfo,
        CallSession.addConnectionStage])
  | endedEvent now o c b cur =>
    exact Or.inr (Or.inr (by
      simp [handlerStep, CallSession.onEnded, CallSession.updateSignallingInfo,
        CallSession.setState, CallSession.addConnectionStage]))
  | getUserMediaFailed => exact Or.inl rfl
  | peerConnectionFailure m => exact Or.inl rfl

/-- Helper: once the gotInitalIce guard is set, no later candidate schedules
a watchdog timer. -/
theorem processIce_armed_no_timer (cs : List (Option String)) :
    ∀ s : CallSession, s.gotInitalIce = true →
      countTimerScheduled (s.processIceCandidates cs).2 = 0 := by
  induction cs with
  | nil =>
    intro s h
    simp [CallSession.processIceCandidates, countTimerScheduled]
  | cons c rest ih =>
    intro s h
    by_cases hc : candidateIsSrflx c
    · have hr := ih s h
      simp [CallSession.processIceCandidates, CallSession.onIceCandidate, hc,
        countTimerScheduled, List.countP_append, List.countP_cons, List.countP_nil,
        isTimerScheduledEvent] at hr ⊢
      exact hr
    · have hr := ih s h
      simp [CallSession.processIceCandidates, CallSession.onIceCandidate, hc, h,
        countTimerScheduled, List.countP_append, List.countP_cons, List.countP_nil,
        isTimerScheduledEvent] at hr ⊢
      exact hr

/-- Helper: over any sequence of delivered candidates, at most one watchdog
timer is ever scheduled. -/
theorem processIce_timer_le_one (cs : List (Option String)) :
    ∀ s : CallSession, countTimerScheduled (s.processIceCandidates cs).2 ≤ 1 := by
  induction cs with
  | nil =>
    intro s
    simp [CallSession.processIceCandidates, countTimerScheduled]
  | cons c rest ih =>
    intro s
    by_cases hc : candidateIsSrflx c
    · have hr := ih s
      simp [CallSession.processIceCandidates, CallSession.onIceCandidate, hc,
        countTimerScheduled, List.countP_append, List.countP_cons, List.countP_nil,
        isTimerScheduledEvent] at hr ⊢
      exact hr
    · by_cases hg : s.gotInitalIce
      · have hr := ih s
        simp [CallSession.processIceCandidates, CallSession.onIceCandidate, hc, hg,
          countTimerScheduled, List.countP_append, List.countP_cons, List.countP_nil,
          isTimerScheduledEvent] at hr ⊢
        exact hr
      · have h0 := processIce_armed_no_timer rest { s with gotInitalIce := true } rfl
        simp [CallSession.processIceCandidates, CallSession.onIceCandidate, hc, hg,
          countTimerScheduled, List.countP_append, List.countP_cons, List.countP_nil,
          isTimerScheduledEvent] at h0 ⊢
        exact h0

/-- Claim C4 (amended): over any sequence of onIceCandidate calls at most
one watchdog timer is ever scheduled; and for a first candidate that does
not take the srflx fast path, with the session reference alive, a
connection present and gathering still incomplete at fire time, the
scenario produces exactly one ready signal and exactly one ice_timeout
diagnostic. The claim as stated fails for a reflexive first candidate,
which is non-relay yet yields no ice_timeout at all. -/
theorem c4_single_watchdog :
    (∀ (s : CallSession) (cs : List (Option String)),
      countTimerScheduled (s.processIceCandidates cs).2 ≤ 1) ∧
    (∀ (t : CallSession) (str : String),
      containsSub str "srflx" = false → t.gotInitalIce = false → t.session = true →
      countReady (t.iceScenario [some str] true false) = 1 ∧
      countIceTimeout (t.iceScenario [some str] true false) = 1) := by
  constructor
  · intro s cs
    exact processIce_timer_le_one cs s
  · intro t str hsr hg hs
    have hc : candidateIsSrflx (some str) = false := by
      simp [candidateIsSrflx, hsr]
    constructor <;>
      simp [CallSession.iceScenario, CallSession.processIceCandidates,
        CallSession.onIceCandidate, hc, hg, CallSession.fireIceWatchdog, hs,
        countReady, countIceTimeout, countTimerScheduled,
        List.countP_append, List.countP_cons, List.countP_nil,
        isReadyEvent, isIceTimeoutEvent, isTimerScheduledEvent]

/-- Witness for c4_single_watchdog: two host candidates schedule at most one
timer, and the one-host-candidate scenario with gathering incomplete at
fire time yields one ready signal and one ice_timeout diagnostic. -/
theorem c4_single_watchdog_witness :
    countTimerScheduled
      (sampleSession.processIceCandidates [some hostCand, some hostCand]).2 ≤ 1 ∧
    containsSub hostCand "srflx" = false ∧
    sampleSession.gotInitalIce = false ∧
    sampleSession.session = true ∧
    countReady (sampleSession.iceScenario [some hostCand] true false) = 1 ∧
    countIceTimeout (sampleSession.iceScenario [some hostCand] true false) = 1 := by
  refine ⟨c4_single_watchdog.1 sampleSession _, by decide, by decide, by decide, ?_, ?_⟩
  · exact (c4_single_watchdog.2 sampleSession hostCand (by decide) (by decide)
      (by decide)).1
  · exact (c4_single_watchdog.2 sampleSession hostCand (by decide) (by decide)
      (by decide)).2

/-- Claim C4 counterexample: a reflexive (srflx) candidate is a non-relay
first candidate, yet the scenario with gathering still incomplete produces
no ice_timeout diagnostic at all, because the fast path skips arming the
watchdog: the exactly-one claim fails for non-relay first candidates. -/
theorem c4_srflx_first_candidate_zero_ice_timeout :
    containsSub srflxCand "relay" = false ∧
    countIceTimeout (sampleSession.iceScenario [some srflxCand] true false) = 0 ∧
    countReady (sampleSession.iceScenario [some srflxCand] true false) = 1 := by
  decide

/-- Claim C8: updateSignallingInfo has shallow-merge semantics: writing
answer_time 1 and then call_confirmed_time 2 yields a record containing
both values, and every field absent from the update record is left
untouched by a merge. -/
theorem c8_updateSignallingInfo_shallow_merge :
    (∀ (s : CallSession) (v1 v2 : Int),
      ((s.updateSignallingInfo { answer_time := some v1 }).updateSignallingInfo
          { call_confirmed_time := some v2 }).signallingInfo.answer_time = some v1 ∧
      ((s.updateSignallingInfo { answer_time := some v1 }).updateSignallingInfo
          { call_confirmed_time := some v2 }).signallingInfo.call_confirmed_time
        = some v2) ∧
    (∀ old upd : SignallingInfo,
      (upd.call_initiation_time = none →
        (mergeSignallingInfo old upd).call_initiation_time = old.call_initiation_time) ∧
      (upd.answer_time = none →
        (mergeSignallingInfo old upd).answer_time = old.answer_time) ∧
      (upd.call_confirmed_time = none →
        (mergeSignallingInfo old upd).call_confirmed_time = old.call_confirmed_time) ∧
      (upd.post_dial_delay = none →
        (mergeSignallingInfo old upd).post_dial_delay = old.post_dial_delay) ∧
      (upd.hangup_time = none →
        (mergeSignallingInfo old upd).hangup_time = old.hangup_time) ∧
      (upd.hangup_party = none →
        (mergeSignallingInfo old upd).hangup_party = old.hangup_party) ∧
      (upd.hangup_reason = none →
        (mergeSignallingInfo old upd).hangup_reason = old.hangup_reason) ∧
      (upd.invite_time = none →
        (mergeSignallingInfo old upd).invite_time = old.invite_time) ∧
      (upd.call_progress_time = none →
        (mergeSignallingInfo old upd).call_progress_time = old.call_progress_time) ∧
      (upd.signalling_errors = none →
        (mergeSignallingInfo old upd).signalling_errors = old.signalling_errors) ∧
      (upd.ring_start_time = none →
        (mergeSignallingInfo old upd).ring_start_time = old.ring_start_time)) := by
  constructor
  · intro s v1 v2
    constructor <;>
      simp [CallSession.updateSignallingInfo, mergeSignallingInfo, mergeField]
  · intro old upd
    refine ⟨?_, ?_, ?_, ?_, ?_, ?_, ?_, ?_, ?_, ?_, ?_⟩ <;>
      (intro h; simp [mergeSignallingInfo, mergeField, h])

/-- Witness for c8_updateSignallingInfo_shallow_merge at concrete values:
both written fields are present afterwards, and a field absent from the
update (hangup_time) is untouched. -/
theorem c8_updateSignallingInfo_shallow_merge_witness :
    ((sampleSession.updateSignallingInfo { answer_time := some 1 }).updateSignallingInfo
        { call_confirmed_time := some 2 }).signallingInfo.answer_time = some 1 ∧
    ((sampleSession.updateSignallingInfo { answer_time := some 1 }).updateSignallingInfo
        { call_confirmed_time := some 2 }).signallingInfo.call_confirmed_time = some 2 ∧
    ({ answer_time := some 1 : SignallingInfo }).hangup_time = none ∧
    (mergeSignallingInfo sampleSession.signallingInfo
        { answer_time := some 1 }).hangup_time =
      sampleSession.signallingInfo.hangup_time :=
  ⟨(c8_updateSignallingInfo_shallow_merge.1 sampleSession 1 2).1,
   (c8_updateSignallingInfo_shallow_merge.1 sampleSession 1 2).2,
   rfl,
   (c8_updateSignallingInfo_shallow_merge.2 sampleSession.signallingInfo
      { answer_time := some 1 }).2.2.2.2.1 rfl⟩

/-- Claim C9: onAccepted emits the answered diagnostic exactly once for
every outcome of the asynchronous device-info query: carrying the device
info when the query fulfils, and with the device info omitted (null) when
it rejects; it is never skipped. -/
theorem c9_answered_event_always_fires (s : CallSession) (now : Int) (d : DeviceAudioInfo) :
    (s.onAccepted now (DeviceQueryOutcome.fulfilled d)).2 =
      [SessionEvent.callAnswered (some d)] ∧
    (s.onAccepted now DeviceQueryOutcome.rejected).2 =
      [SessionEvent.callAnswered none] ∧
    (∀ q : DeviceQueryOutcome, (s.onAccepted now q).2.length = 1) := by
  refine ⟨rfl, rfl, ?_⟩
  intro q
  cases q <;> rfl

/-- Claim C10: fetchIPAddress never rejects: every outcome of the SIP
MESSAGE resolves the promise; a succeeded response with a truthy body
resolves with the body string, and the body-less and failed outcomes
resolve with an Error value carried as the resolution value. -/
theorem c10_fetchIPAddress_never_rejects :
    (∀ o : MessageOutcome, (fetchIPAddress o).isResolved = true) ∧
    (∀ b : String, jsTruthyStr b = true →
      fetchIPAddress (MessageOutcome.succeeded (some b)) =
        PromiseOutcome.resolvedWith (Sum.inl b)) ∧
    fetchIPAddress (MessageOutcome.succeeded none) =
      PromiseOutcome.resolvedWith
        (Sum.inr { message := "couldn\x27t retrieve ipaddress" }) ∧
    fetchIPAddress MessageOutcome.failed =
      PromiseOutcome.resolvedWith
        (Sum.inr { message := "couldn\x27t retrieve ipaddress" }) := by
  refine ⟨?_, ?_, rfl, rfl⟩
  · intro o
    cases o with
    | succeeded rb =>
      cases rb with
      | some b =>
        by_cases hb : jsTruthyStr b <;>
          simp [fetchIPAddress, hb, PromiseOutcome.isResolved]
      | none => rfl
    | failed => rfl
  · intro b hb
    simp [fetchIPAddress, hb]

/-- Witness for c10_fetchIPAddress_never_rejects at a concrete nonempty
response body. -/
theorem c10_fetchIPAddress_never_rejects_witness :
    (fetchIPAddress (MessageOutcome.succeeded (some "10.0.0.1"))).isResolved = true ∧
    jsTruthyStr "10.0.0.1" = true ∧
    fetchIPAddress (MessageOutcome.succeeded (some "10.0.0.1")) =
      PromiseOutcome.resolvedWith (Sum.inl "10.0.0.1") :=
  ⟨c10_fetchIPAddress_never_rejects.1 (MessageOutcome.succeeded (some "10.0.0.1")),
   by decide,
   c10_fetchIPAddress_never_rejects.2.1 "10.0.0.1" (by decide)⟩

end Plivo
